import Mathlib

/-!
Verification development for the ProfessorOakBot graphics-monitor core
(`src/cogs/graphics_monitor.py`, `src/database/models.py`).

The Python code is shallowly embedded: `DateParser.parse_date` becomes a
pure Lean function over `List Char` (the regex searches are modelled as
explicit leftmost-match scanners following Python `re.search` semantics,
with `\d` and `\s` restricted to ASCII and word characters restricted to
ASCII alphanumerics, underscore, Polish letters, and the characters that
occur in the month vocabulary; the source's Polish vocabulary entries are
mojibake — UTF-8 decoded as Mac-Roman — and are embedded here character
for character), `datetime.datetime` becomes a six-field record with
explicit Gregorian-calendar arithmetic, and the stateful cog methods
become explicit functions from record/store values and an environment of
platform facts (channel exists, message exists, delivery allowed) to new
record/store values.
-/

/-- Model of Python `datetime.datetime` restricted to the fields the bot
uses (naive or UTC-aware values; the tzinfo tag carries no data because
every stored datetime in the code is UTC). -/
structure PyDateTime where
  year : Nat
  month : Nat
  day : Nat
  hour : Nat
  minute : Nat
  second : Nat
deriving DecidableEq, Repr

/-- Result record of `DateParser.parse_date` (`DateParseResult` NamedTuple). -/
structure DateParseResult where
  original_date_string : Option String
  expiry_datetime : Option PyDateTime
  in_effect_datetime : Option PyDateTime
deriving DecidableEq, Repr

/-- Gregorian leap-year test, as Python's `calendar`/`datetime` use. -/
def isLeapYear (y : Nat) : Bool :=
  y % 4 == 0 && (y % 100 != 0 || y % 400 == 0)

/-- Length of a month in the Gregorian calendar. -/
def daysInMonth (y m : Nat) : Nat :=
  match m with
  | 2 => if isLeapYear y then 29 else 28
  | 4 => 30
  | 6 => 30
  | 9 => 30
  | 11 => 30
  | _ => 31

/-- Model of the `datetime.datetime(...)` constructor: returns `none`
exactly when CPython would raise `ValueError` (field out of range). -/
def mkDatetime (y m d h mi s : Nat) : Option PyDateTime :=
  if 1 ≤ y && y ≤ 9999 && 1 ≤ m && m ≤ 12 && 1 ≤ d && d ≤ daysInMonth y m
      && h ≤ 23 && mi ≤ 59 && s ≤ 59 then
    some ⟨y, m, d, h, mi, s⟩
  else
    none

/-- Calendar successor day, keeping the time of day: models adding
`datetime.timedelta(days=1)` to a valid datetime. -/
def addOneDay (dt : PyDateTime) : PyDateTime :=
  if dt.day < daysInMonth dt.year dt.month then
    { dt with day := dt.day + 1 }
  else if dt.month < 12 then
    { dt with month := dt.month + 1, day := 1 }
  else
    { dt with year := dt.year + 1, month := 1, day := 1 }

/-- Subtracting `datetime.timedelta(seconds=1)` from a valid datetime. -/
def subOneSecond (dt : PyDateTime) : PyDateTime :=
  if dt.second > 0 then { dt with second := dt.second - 1 }
  else if dt.minute > 0 then { dt with minute := dt.minute - 1, second := 59 }
  else if dt.hour > 0 then { dt with hour := dt.hour - 1, minute := 59, second := 59 }
  else if dt.day > 1 then { dt with day := dt.day - 1, hour := 23, minute := 59, second := 59 }
  else if dt.month > 1 then
    ⟨dt.year, dt.month - 1, daysInMonth dt.year (dt.month - 1), 23, 59, 59⟩
  else
    ⟨dt.year - 1, 12, 31, 23, 59, 59⟩

/-- Calendar predecessor of a (year, month, day) date, as
`date - datetime.timedelta(days=1)`. -/
def prevDay (y m d : Nat) : Nat × Nat × Nat :=
  if d > 1 then (y, m, d - 1)
  else if m > 1 then (y, m - 1, daysInMonth y (m - 1))
  else (y - 1, 12, 31)

/-- Days from year 1, month 1, day 1 (proleptic Gregorian), matching
Python's `datetime.date.toordinal` minus one. -/
def daysBeforeMonth (y m : Nat) : Nat :=
  (match m with
   | 1 => 0 | 2 => 31 | 3 => 59 | 4 => 90 | 5 => 120 | 6 => 151
   | 7 => 181 | 8 => 212 | 9 => 243 | 10 => 273 | 11 => 304 | _ => 334)
  + (if 3 ≤ m && isLeapYear y then 1 else 0)

/-- Day count of a civil date measured from 0001-01-01. -/
def daysFromCivil (y m d : Nat) : Int :=
  365 * ((y : Int) - 1) + ((y - 1) / 4 : Nat) - ((y - 1) / 100 : Nat)
    + ((y - 1) / 400 : Nat) + daysBeforeMonth y m + ((d : Int) - 1)

/-- Absolute instant (seconds) of a UTC datetime value; differences of
`toSecs` model differences of aware Python datetimes (`timedelta`s). -/
def toSecs (dt : PyDateTime) : Int :=
  daysFromCivil dt.year dt.month dt.day * 86400
    + dt.hour * 3600 + dt.minute * 60 + dt.second

/- ### Regex scanners

The three class-level patterns of `DateParser` are modelled as explicit
scanners with Python `re.search` leftmost-match semantics.  The per-
position matchers implement the greedy `\d{1,2}` with its (degenerate)
backtracking: because each `\d{1,2}` group in the patterns is followed by
a literal (`.`/`:`), by `\s*-`, by `\s+`, or ends the pattern, greedy
matching plus backtracking reduces to the deterministic rules coded
below. -/

/-- Python regex `\d` restricted to ASCII (the inputs of interest). -/
def pyDigit (c : Char) : Bool := '0' ≤ c && c ≤ '9'

/-- Python regex `\s` restricted to ASCII. -/
def pySpace (c : Char) : Bool :=
  c = ' ' || c = '\t' || c = '\n' || c = '\r' || c = Char.ofNat 11 || c = Char.ofNat 12

/-- Numeric value of an ASCII digit character. -/
def digitVal (c : Char) : Nat := c.toNat - 48

/-- Skip a (possibly empty) run of whitespace, `\s*`. -/
def skipSpaces (cs : List Char) : List Char := cs.dropWhile pySpace

/-- Match `\d{1,2}` immediately followed by the literal `lit`, consuming
the literal; greedy on the digits with backtracking. -/
def numThenLit (lit : Char) : List Char → Option (Nat × List Char)
  | a :: b :: c :: rest =>
    if pyDigit a && pyDigit b && c == lit then
      some (10 * digitVal a + digitVal b, rest)
    else if pyDigit a && b == lit then
      some (digitVal a, c :: rest)
    else none
  | [a, b] => if pyDigit a && b == lit then some (digitVal a, []) else none
  | _ => none

/-- Value of a digit run of length one or two. -/
def digitsVal : List Char → Nat
  | [a] => digitVal a
  | [a, b] => 10 * digitVal a + digitVal b
  | _ => 0

/-- Match `\d{1,2}\s*-\s*`: a digit run of length at most two (a longer
run cannot back off, because the character after a shorter prefix would
be a digit, matching neither `\s` nor `-`), then the dash with optional
surrounding whitespace. -/
def numThenDash (cs : List Char) : Option (Nat × List Char) :=
  let ds := cs.takeWhile pyDigit
  if ds.length = 0 || ds.length > 2 then none
  else
    match skipSpaces (cs.drop ds.length) with
    | c :: rest => if c == '-' then some (digitsVal ds, skipSpaces rest) else none
    | [] => none

/-- Match `\d{1,2}\s+`: digit run of length at most two, then at least
one whitespace character, consuming the whole whitespace run. -/
def numThenSpaces (cs : List Char) : Option (Nat × List Char) :=
  let ds := cs.takeWhile pyDigit
  if ds.length = 0 || ds.length > 2 then none
  else
    match cs.drop ds.length with
    | c :: rest => if pySpace c then some (digitsVal ds, skipSpaces rest) else none
    | [] => none

/-- Match a final `\d{1,2}` (end of pattern): plain greedy, one or two
digits. -/
def finalNum : List Char → Option (Nat × List Char)
  | a :: b :: rest =>
    if pyDigit a && pyDigit b then some (10 * digitVal a + digitVal b, rest)
    else if pyDigit a then some (digitVal a, b :: rest)
    else none
  | [a] => if pyDigit a then some (digitVal a, []) else none
  | [] => none

/-- Attempt `DATE_RANGE_PATTERN`
`(\d{1,2})\.(\d{1,2})\s*-\s*(\d{1,2})\.(\d{1,2})` at the head of `cs`,
returning the four groups and the unconsumed suffix. -/
def matchDayRangeAt (cs : List Char) : Option (Nat × Nat × Nat × Nat × List Char) := do
  let (d1, r1) ← numThenLit '.' cs
  let (m1, r2) ← numThenDash r1
  let (d2, r3) ← numThenLit '.' r2
  let (m2, r4) ← finalNum r3
  pure (d1, m1, d2, m2, r4)

/-- Leftmost `re.search` for `DATE_RANGE_PATTERN`: the four groups
together with the matched substring (`match.group(0)`). -/
def searchDayRange : List Char → Option (Nat × Nat × Nat × Nat × List Char)
  | [] => none
  | c :: rest =>
    match matchDayRangeAt (c :: rest) with
    | some (d1, m1, d2, m2, after) =>
      some (d1, m1, d2, m2, (c :: rest).take ((c :: rest).length - after.length))
    | none => searchDayRange rest

/-- Attempt `DATETIME_RANGE_PATTERN`
`(\d{1,2})\.(\d{1,2})\s+(\d{1,2}):(\d{1,2})\s*-\s*(\d{1,2}):(\d{1,2})`
at the head of `cs`. -/
def matchTimeRangeAt (cs : List Char) :
    Option (Nat × Nat × Nat × Nat × Nat × Nat × List Char) := do
  let (d, r1) ← numThenLit '.' cs
  let (m, r2) ← numThenSpaces r1
  let (h1, r3) ← numThenLit ':' r2
  let (mi1, r4) ← numThenDash r3
  let (h2, r5) ← numThenLit ':' r4
  let (mi2, r6) ← finalNum r5
  pure (d, m, h1, mi1, h2, mi2, r6)

/-- Leftmost `re.search` for `DATETIME_RANGE_PATTERN`. -/
def searchTimeRange : List Char → Option (Nat × Nat × Nat × Nat × Nat × Nat × List Char)
  | [] => none
  | c :: rest =>
    match matchTimeRangeAt (c :: rest) with
    | some (d, m, h1, mi1, h2, mi2, after) =>
      some (d, m, h1, mi1, h2, mi2, (c :: rest).take ((c :: rest).length - after.length))
    | none => searchTimeRange rest

/- ### Month-name vocabulary -/

/-- The alternatives of `MONTH_NAME_PATTERN` in their order inside the
alternation (Python tries them left to right at each position).  The
source file's Polish vocabulary is mojibake — its UTF-8 bytes were once
decoded as Mac-Roman, so where `styczeń` was intended the pattern
actually contains `stycze` followed by U+2248 U+00D1, and `październik`
contains U+2248 U+222B — and is embedded here character for character. -/
def monthAlternativesList : List String :=
  ["january", "february", "march", "april", "may", "june", "july", "august",
   "september", "october", "november", "december",
   "stycze≈Ñ", "styczen", "luty", "marzec", "kwiecie≈Ñ", "kwiecien", "maj",
   "czerwiec", "lipiec", "sierpie≈Ñ", "sierpien", "wrzesie≈Ñ", "wrzesien",
   "pa≈∫dziernik", "pazdziernik", "listopad", "grudzie≈Ñ", "grudzien"]

/-- The `DateParser.MONTHS` dictionary (name → month number), with the
source's mojibake Polish keys embedded character for character. -/
def MONTHS : List (String × Nat) :=
  [("january", 1), ("february", 2), ("march", 3), ("april", 4),
   ("may", 5), ("june", 6), ("july", 7), ("august", 8),
   ("september", 9), ("october", 10), ("november", 11), ("december", 12),
   ("stycze≈Ñ", 1), ("styczen", 1),
   ("luty", 2),
   ("marzec", 3),
   ("kwiecie≈Ñ", 4), ("kwiecien", 4),
   ("maj", 5),
   ("czerwiec", 6),
   ("lipiec", 7),
   ("sierpie≈Ñ", 8), ("sierpien", 8),
   ("wrzesie≈Ñ", 9), ("wrzesien", 9),
   ("pa≈∫dziernik", 10), ("pazdziernik", 10),
   ("listopad", 11),
   ("grudzie≈Ñ", 12), ("grudzien", 12)]

/-- The `DateParser.MONTH_DISPLAY_NAMES` dictionary (lowercase key →
display form).  The Polish keys and display values in the source are
mojibake (see `monthAlternativesList`); they are embedded character for
character, so the display label the program emits for `styczen` is
`Stycze` followed by U+2248 U+00D1, not the intended `Styczeń`. -/
def MONTH_DISPLAY_NAMES : List (String × String) :=
  [("january", "January"), ("february", "February"), ("march", "March"),
   ("april", "April"), ("may", "May"), ("june", "June"), ("july", "July"),
   ("august", "August"), ("september", "September"), ("october", "October"),
   ("november", "November"), ("december", "December"),
   ("stycze≈Ñ", "Stycze≈Ñ"), ("styczen", "Stycze≈Ñ"),
   ("luty", "Luty"),
   ("marzec", "Marzec"),
   ("kwiecie≈Ñ", "Kwiecie≈Ñ"), ("kwiecien", "Kwiecie≈Ñ"),
   ("maj", "Maj"),
   ("czerwiec", "Czerwiec"),
   ("lipiec", "Lipiec"),
   ("sierpie≈Ñ", "Sierpie≈Ñ"), ("sierpien", "Sierpie≈Ñ"),
   ("wrzesie≈Ñ", "Wrzesie≈Ñ"), ("wrzesien", "Wrzesie≈Ñ"),
   ("pa≈∫dziernik", "Pa≈∫dziernik"), ("pazdziernik", "Pa≈∫dziernik"),
   ("listopad", "Listopad"),
   ("grudzie≈Ñ", "Grudzie≈Ñ"), ("grudzien", "Grudzie≈Ñ")]

/-- Python `str.lower` restricted to ASCII letters, the Polish letters,
and `Ñ` (U+00D1, which occurs inside the source's mojibake vocabulary;
its lowering to `ñ` is why the mojibake alternatives containing it can
never match the lowercased content).  The mojibake symbol characters
U+2248 and U+222B are caseless, as in Python. -/
def lowerChar (c : Char) : Char :=
  if 'A' ≤ c && c ≤ 'Z' then Char.ofNat (c.toNat + 32)
  else if c = 'Ą' then 'ą' else if c = 'Ć' then 'ć' else if c = 'Ę' then 'ę'
  else if c = 'Ł' then 'ł' else if c = 'Ń' then 'ń' else if c = 'Ó' then 'ó'
  else if c = 'Ś' then 'ś' else if c = 'Ź' then 'ź' else if c = 'Ż' then 'ż'
  else if c = 'Ñ' then 'ñ'
  else c

/-- Python regex `\w` restricted to ASCII alphanumerics, underscore,
the Polish letters, and `Ñ`/`ñ` (enough for the `\b` boundaries the
month pattern uses).  The mojibake symbols U+2248 and U+222B inside the
source's Polish alternatives are math symbols, not word characters, in
Python as well. -/
def isWordChar (c : Char) : Bool :=
  c.isAlphanum || c == '_' ||
    ['ą', 'ć', 'ę', 'ł', 'ń', 'ó', 'ś', 'ź', 'ż',
     'Ą', 'Ć', 'Ę', 'Ł', 'Ń', 'Ó', 'Ś', 'Ź', 'Ż', 'Ñ', 'ñ'].contains c

/-- Word boundary `\b` holds after the matched name: end of input or a
non-word character. -/
def endBoundary : List Char → Bool
  | [] => true
  | c :: _ => !isWordChar c

/-- At a fixed position, the first alternative (in alternation order)
that is a prefix of the remaining input and is followed by a word
boundary; mirrors how the regex engine tries `\b(a|b|...)\b` at one
position. -/
def firstMonthAltAt (cs : List Char) : Option String :=
  monthAlternativesList.find? fun alt =>
    alt.toList.isPrefixOf cs && endBoundary (cs.drop alt.toList.length)

/-- Leftmost `re.search` scan for `MONTH_NAME_PATTERN`; `prev` is the
character before the current position, for the leading `\b`. -/
def searchMonthAux : Option Char → List Char → Option String
  | _, [] => none
  | prev, c :: rest =>
    if (match prev with | none => true | some p => !isWordChar p) then
      match firstMonthAltAt (c :: rest) with
      | some name => some name
      | none => searchMonthAux (some c) rest
    else searchMonthAux (some c) rest

/-- Leftmost match of `MONTH_NAME_PATTERN` (returns `match.group(1)`,
which for this pattern is the whole matched word). -/
def searchMonthName (cs : List Char) : Option String := searchMonthAux none cs

/-- Python `str.capitalize` restricted to ASCII, used only through the
`.get(...)` default in the source (never reached for vocabulary words). -/
def pyCapitalize (s : String) : String :=
  match s.toList with
  | [] => s
  | c :: rest =>
    String.mk ((if 'a' ≤ c && c ≤ 'z' then Char.ofNat (c.toNat - 32) else c) :: rest.map lowerChar)

/- ### `DateParser.parse_date`

The function takes the wall-clock year and month at parse time
(`datetime.datetime.now().year/.month`) as explicit parameters. -/

/-- First branch of `parse_date`: the `DD.MM-DD.MM` pattern with
year-rollover inference, returning `none` both when the regex fails and
when `datetime.datetime(...)` raises `ValueError`. -/
def tryDayRange (nowY nowM : Nat) (cs : List Char) : Option DateParseResult :=
  match searchDayRange cs with
  | none => none
  | some (d1, m1, d2, m2, s) =>
    match mkDatetime (if nowM > m1 + 6 then nowY + 1 else nowY) m1 d1 0 0 0,
          mkDatetime (if m2 < m1 then (if nowM > m1 + 6 then nowY + 1 else nowY) + 1
                      else (if nowM > m1 + 6 then nowY + 1 else nowY)) m2 d2 0 0 0 with
    | some sd, some ed =>
      some ⟨some (String.mk s),
            some (addOneDay { ed with hour := 23, minute := 59, second := 59 }),
            some sd⟩
    | _, _ => none

/-- Second branch of `parse_date`: the `DD.MM HH:mm-HH:mm` pattern. -/
def tryTimeRange (nowY nowM : Nat) (cs : List Char) : Option DateParseResult :=
  match searchTimeRange cs with
  | none => none
  | some (d, m, h1, mi1, h2, mi2, s) =>
    match mkDatetime (if nowM > m + 6 then nowY + 1 else nowY) m d h1 mi1 0,
          mkDatetime (if nowM > m + 6 then nowY + 1 else nowY) m d h2 mi2 0 with
    | some sd, some ed =>
      some ⟨some (String.mk s), some (addOneDay ed), some sd⟩
    | _, _ => none

/-- Third branch of `parse_date`: the month-name pattern over the
lowercased content.  The source builds the month's last instant either
directly (December) or as `first of next month - 1 second`, then adds
the one-day grace period. -/
def tryMonth (nowY nowM : Nat) (cl : List Char) : Option DateParseResult :=
  match searchMonthName cl with
  | none => none
  | some name =>
    match MONTHS.lookup name with
    | none => none
    | some m =>
      let endD : PyDateTime :=
        if m == 12 then
          ⟨(if nowM > m + 6 then nowY + 1 else nowY), 12, 31, 23, 59, 59⟩
        else
          subOneSecond ⟨(if nowM > m + 6 then nowY + 1 else nowY), m + 1, 1, 0, 0, 0⟩
      some ⟨some ((MONTH_DISPLAY_NAMES.lookup name).getD (pyCapitalize name)),
            some (addOneDay endD),
            some ⟨(if nowM > m + 6 then nowY + 1 else nowY), m, 1, 0, 0, 0⟩⟩

/-- Tail of the priority cascade starting at the month pattern. -/
def parseFromMonth (nowY nowM : Nat) (cl : List Char) : DateParseResult :=
  match tryMonth nowY nowM cl with
  | some r => r
  | none => ⟨none, none, none⟩

/-- Tail of the priority cascade starting at the intraday time-range
pattern. -/
def parseFromTime (nowY nowM : Nat) (cs : List Char) : DateParseResult :=
  match tryTimeRange nowY nowM cs with
  | some r => r
  | none => parseFromMonth nowY nowM (cs.map lowerChar)

/-- Embedding of `DateParser.parse_date`: try the three patterns in
priority order; a pattern whose match produces an invalid calendar value
is rejected as a whole and the next pattern is tried. -/
def parse_date (nowY nowM : Nat) (content : String) : DateParseResult :=
  match tryDayRange nowY nowM content.toList with
  | some r => r
  | none => parseFromTime nowY nowM content.toList

/- ### Data model (`src/database/models.py`) and cog operations

Stored datetimes are represented by their absolute instants (`Int`
seconds, via `toSecs`), which is what every database comparison in the
code uses.  Field defaults mirror the column defaults of
`MonitoredGraphic`. -/

/-- Row of the `monitored_graphics` table (`MonitoredGraphic`). -/
structure MonitoredGraphic where
  message_id : Nat
  channel_id : Nat
  guild_id : Nat
  author_id : Nat
  date_format : Option String := none
  expiry_date : Option Int := none
  in_effect_date : Option Int := none
  reminder_scheduled_time : Option Int := none
  reminder_sent : Bool := false
  reminder_message_id : Option Nat := none
  pending_approval : Bool := false
  approval_message_id : Option Nat := none
  marked_no_date : Bool := false
deriving DecidableEq, Repr

/-- The persistent store visible to the cog: the opted-in channels
(`monitored_graphics_channels`, by channel id) and the monitored
graphics rows. -/
structure Store where
  channels : List Nat
  graphics : List MonitoredGraphic
deriving DecidableEq, Repr

/-- Filter of the hourly reminder query in `check_and_send_reminders`:
`reminder_scheduled_time <= now`, `reminder_sent == False`,
`marked_no_date == False`, `reminder_scheduled_time` not null (a null
instant fails the `<=` comparison as well). -/
def needsReminder (now : Int) (g : MonitoredGraphic) : Bool :=
  match g.reminder_scheduled_time with
  | none => false
  | some t => t ≤ now && !g.reminder_sent && !g.marked_no_date

/-- Filter of the hourly expiry query in `check_expired_graphics`:
`expiry_date <= now`, `pending_approval == False`,
`marked_no_date == False`. -/
def needsExpiry (now : Int) (g : MonitoredGraphic) : Bool :=
  match g.expiry_date with
  | none => false
  | some t => t ≤ now && !g.pending_approval && !g.marked_no_date

/-- Database effect of `GraphicsMonitorCog._mark_no_response`: sets
`marked_no_date = True` and commits; no other column is touched. -/
def mark_no_response (g : MonitoredGraphic) : MonitoredGraphic :=
  { g with marked_no_date := true }

/-- Facts about the external platform at the moment an evaluator touches
one record: whether `bot.get_channel` finds the channel, whether
`fetch_message` finds the original message (else `discord.NotFound`),
whether sending/replying is permitted (else `discord.Forbidden`), and
the id the platform would assign to a newly created message. -/
structure PlatformEnv where
  channelExists : Bool
  messageExists : Bool
  canDeliver : Bool
  newArtifactId : Nat
deriving DecidableEq, Repr

/-- Outcome of one evaluator step on one record: the record's new state
(`none` when the row was deleted from the store) and whether the step's
artifact (reminder reply, approval DM) was emitted. -/
structure StepResult where
  record : Option MonitoredGraphic
  emitted : Bool
deriving DecidableEq, Repr

/-- Embedding of `GraphicsMonitorCog._send_reminder`: channel missing →
mark sent (avoid retrying); original message gone → delete the row;
reply allowed → reply, mark sent, record the reply id; `Forbidden` →
still mark sent so the reminder is not retried. -/
def send_reminder (env : PlatformEnv) (g : MonitoredGraphic) : StepResult :=
  if !env.channelExists then
    ⟨some { g with reminder_sent := true }, false⟩
  else if !env.messageExists then
    ⟨none, false⟩
  else if env.canDeliver then
    ⟨some { g with reminder_sent := true, reminder_message_id := some env.newArtifactId }, true⟩
  else
    ⟨some { g with reminder_sent := true }, false⟩

/-- Embedding of `GraphicsMonitorCog._request_deletion_approval`:
channel missing → no change; original message gone → delete the row and
send nothing; DM delivered → set `pending_approval` and store the DM id;
DM `Forbidden` → fall back to `_mark_no_response`. -/
def request_deletion_approval (env : PlatformEnv) (g : MonitoredGraphic) : StepResult :=
  if !env.channelExists then
    ⟨some g, false⟩
  else if !env.messageExists then
    ⟨none, false⟩
  else if env.canDeliver then
    ⟨some { g with pending_approval := true, approval_message_id := some env.newArtifactId }, true⟩
  else
    ⟨some (mark_no_response g), false⟩

/-- Python truthiness of the `original_date_string` field (an empty
string is falsy). -/
def optStrTruthy : Option String → Bool
  | none => false
  | some s => !(s == "")

/-- Python truthiness of an optional datetime (datetimes are always
truthy). -/
def optDTTruthy : Option PyDateTime → Bool
  | none => false
  | some _ => true

/-- Embedding of `GraphicsMonitorCog._calculate_reminder_time`.
`tzOffset` abstracts the `ZoneInfo` lookup: the UTC offset in seconds of
a wall-clock time in the configured reminder timezone; `rh`/`rm` are the
configured reminder hour and minute.  The result is the absolute UTC
instant of the reminder, or `none` when the message was posted less than
48 hours before the effective instant. -/
def calculate_reminder_time (tzOffset : PyDateTime → Int) (rh rm : Nat)
    (in_effect posted : PyDateTime) : Option Int :=
  if toSecs in_effect - toSecs posted < 48 * 3600 then
    none
  else
    let p := prevDay in_effect.year in_effect.month in_effect.day
    some (toSecs ⟨p.1, p.2.1, p.2.2, rh, rm, 0⟩ - tzOffset ⟨p.1, p.2.1, p.2.2, rh, rm, 0⟩)

/-- An inbound message as `on_message` sees it: ids, author facts
(`author.bot`, `guild_permissions.manage_messages`), attachment
presence, raw content, and `created_at`. -/
structure InMessage where
  id : Nat
  channel_id : Nat
  guild_id : Nat
  author_id : Nat
  authorBot : Bool
  manageMessages : Bool
  hasAttachments : Bool
  content : String
  created_at : PyDateTime
deriving DecidableEq, Repr

/-- Embedding of `GraphicsMonitorCog.on_message` (its database effect):
ignore bot authors, unmonitored channels, authors without
`manage_messages`, messages without attachments, and already-monitored
message ids; otherwise parse and, on success, insert a new
`MonitoredGraphic` with the parsed window and the computed reminder
instant (a parse failure only triggers the moderator DM, which does not
change the store). -/
def on_message (nowY nowM : Nat) (tzOffset : PyDateTime → Int) (rh rm : Nat)
    (store : Store) (msg : InMessage) : Store :=
  if msg.authorBot then store
  else if (store.channels.find? (fun c => c == msg.channel_id)).isNone then store
  else if !msg.manageMessages then store
  else if !msg.hasAttachments then store
  else if (store.graphics.find? (fun g => g.message_id == msg.id)).isSome then store
  else if optStrTruthy (parse_date nowY nowM msg.content).original_date_string &&
      optDTTruthy (parse_date nowY nowM msg.content).expiry_datetime then
    { store with
        graphics := store.graphics ++
          [{ message_id := msg.id
             channel_id := msg.channel_id
             guild_id := msg.guild_id
             author_id := msg.author_id
             date_format := (parse_date nowY nowM msg.content).original_date_string
             expiry_date := (parse_date nowY nowM msg.content).expiry_datetime.map toSecs
             in_effect_date := (parse_date nowY nowM msg.content).in_effect_datetime.map toSecs
             reminder_scheduled_time :=
               match (parse_date nowY nowM msg.content).in_effect_datetime with
               | some eff => calculate_reminder_time tzOffset rh rm eff msg.created_at
               | none => none }] }
  else store

/-- Python `str.strip` (ASCII whitespace), applied by
`DateInputModal.on_submit` to the moderator-provided date string. -/
def pyStrip (s : String) : String :=
  String.mk (((s.toList.dropWhile pySpace).reverse.dropWhile pySpace).reverse)

/-- Embedding of `DateInputModal.on_submit` (its database effect): if
the channel and message still exist, the message is not already
monitored, and the stripped date string parses, insert a record carrying
only `date_format` and `expiry_date` (all other columns keep their
defaults); every other path leaves the store unchanged. -/
def modal_on_submit (nowY nowM : Nat) (env : PlatformEnv) (store : Store)
    (msg : InMessage) (rawDate : String) : Store :=
  if !env.channelExists then store
  else if !env.messageExists then store
  else if (store.graphics.find? (fun g => g.message_id == msg.id)).isSome then store
  else if optStrTruthy (parse_date nowY nowM (pyStrip rawDate)).original_date_string &&
      optDTTruthy (parse_date nowY nowM (pyStrip rawDate)).expiry_datetime then
    { store with
        graphics := store.graphics ++
          [{ message_id := msg.id
             channel_id := msg.channel_id
             guild_id := msg.guild_id
             author_id := msg.author_id
             date_format := (parse_date nowY nowM (pyStrip rawDate)).original_date_string
             expiry_date := (parse_date nowY nowM (pyStrip rawDate)).expiry_datetime.map toSecs }] }
  else store

/-- Year-rollover inference rule of `DateParser.parse_date` (the `if
current_month > month + 6` heuristic repeated in all three branches of
the source): a month more than six months in the past is taken to mean
the next calendar year. -/
def inferYear (nowY nowM M : Nat) : Nat :=
  if nowM > M + 6 then nowY + 1 else nowY

/-- A record carries scheduling fields (claim C6's first alternative):
`expiry_date` or `in_effect_date` is set. -/
def hasSchedulingFields (g : MonitoredGraphic) : Bool :=
  g.expiry_date.isSome || g.in_effect_date.isSome

/-- The claimed per-record invariant of C6: a record is either scheduled
(scheduling fields present, flag clear) or flagged as needing attention
(`marked_no_date` set, no scheduling fields) — never both. -/
def recordExclusiveInvariant (g : MonitoredGraphic) : Bool :=
  (hasSchedulingFields g && !g.marked_no_date) ||
    (g.marked_no_date && !hasSchedulingFields g)

/-- Concrete scheduled record for the C6 counterexample: its expiry has
passed, so the expiry evaluator picks it up. -/
def c6rec : MonitoredGraphic :=
  { message_id := 1, channel_id := 2, guild_id := 3, author_id := 4,
    date_format := some "January", expiry_date := some 100, in_effect_date := some 50 }

/-- Environment for the C6 counterexample: channel and message exist but
the moderator DM is forbidden, so `_mark_no_response` runs. -/
def c6env : PlatformEnv := ⟨true, true, false, 0⟩

/-- C6 (counterexample): the claimed exactly-one-of invariant is not
preserved. A scheduled record whose expiry fires while the moderator DM
is forbidden is routed through `_mark_no_response`, which sets
`marked_no_date = True` without clearing `expiry_date`/`in_effect_date`;
the resulting record is simultaneously scheduled and flagged, violating
the claimed invariant. -/
theorem c6_counterexample :
    recordExclusiveInvariant c6rec = true ∧
    needsExpiry 200 c6rec = true ∧
    (request_deletion_approval c6env c6rec).record.map recordExclusiveInvariant
      = some false := by
  decide

/-- C6 (amended): `_mark_no_response` sets the unresolved flag and
leaves the scheduling fields intact, so a record can be both scheduled
and flagged; the flag alone is what excludes the record from both
periodic evaluator queries, so a flagged record is never processed as
scheduled. -/
theorem c6_flagged_record_excluded (g : MonitoredGraphic) (now : Int) :
    (mark_no_response g).marked_no_date = true ∧
    (mark_no_response g).expiry_date = g.expiry_date ∧
    (mark_no_response g).in_effect_date = g.in_effect_date ∧
    needsReminder now (mark_no_response g) = false ∧
    needsExpiry now (mark_no_response g) = false := by
  refine ⟨rfl, rfl, rfl, ?_, ?_⟩
  · cases h : g.reminder_scheduled_time <;> simp [needsReminder, mark_no_response, h]
  · cases h : g.expiry_date <;> simp [needsExpiry, mark_no_response, h]

/-- C7: when an evaluator fires and the channel is reachable but the
originating message no longer exists (`discord.NotFound`), the record is
deleted from the store and no artifact is emitted: `_send_reminder`
sends no reminder, and `_request_deletion_approval` sends no approval
prompt and does not set `pending_approval`. -/
theorem c7_content_gone_cleanup (env : PlatformEnv) (g : MonitoredGraphic)
    (hch : env.channelExists = true) (hmsg : env.messageExists = false) :
    send_reminder env g = ⟨none, false⟩ ∧
    request_deletion_approval env g = ⟨none, false⟩ := by
  constructor <;> simp [send_reminder, request_deletion_approval, hch, hmsg]

/-- Witness for C7 at a concrete environment and record. -/
theorem c7_content_gone_cleanup_witness :
    send_reminder ⟨true, false, true, 9⟩ ⟨1, 1, 1, 1, none, some 0, none, none, false, none, false, none, false⟩ = ⟨none, false⟩ ∧
    request_deletion_approval ⟨true, false, true, 9⟩ ⟨1, 1, 1, 1, none, some 0, none, none, false, none, false, none, false⟩ = ⟨none, false⟩ :=
  c7_content_gone_cleanup _ _ rfl rfl

/-- C8: when reminder emission fails with `discord.Forbidden`, the
record still gets `reminder_sent = true` (and is committed), and the
reminder query never selects such a record again, so the reminder is not
retried automatically. -/
theorem c8_forbidden_marks_sent (env : PlatformEnv) (g : MonitoredGraphic)
    (hch : env.channelExists = true) (hmsg : env.messageExists = true)
    (hforb : env.canDeliver = false) :
    send_reminder env g = ⟨some { g with reminder_sent := true }, false⟩ ∧
    ∀ now : Int, needsReminder now { g with reminder_sent := true } = false := by
  constructor
  · simp [send_reminder, hch, hmsg, hforb]
  · intro now
    cases h : g.reminder_scheduled_time <;> simp [needsReminder, h]

/-- Witness for C8 at a concrete environment and record. -/
theorem c8_forbidden_marks_sent_witness :
    send_reminder ⟨true, true, false, 9⟩ ⟨1, 1, 1, 1, none, some 0, none, some 0, false, none, false, none, false⟩ =
      ⟨some ⟨1, 1, 1, 1, none, some 0, none, some 0, true, none, false, none, false⟩, false⟩ ∧
    ∀ now : Int, needsReminder now ⟨1, 1, 1, 1, none, some 0, none, some 0, true, none, false, none, false⟩ = false :=
  c8_forbidden_marks_sent _ _ rfl rfl rfl

/-- C5: `_calculate_reminder_time` returns no reminder exactly when the
effective instant is strictly less than 48 hours after the submission
instant; otherwise it returns the absolute UTC instant of the configured
hour:minute wall-clock time, in the configured timezone, on the calendar
day immediately preceding the effective date. -/
theorem c5_reminder_time (tz : PyDateTime → Int) (rh rm : Nat) (eff post : PyDateTime) :
    (toSecs eff - toSecs post < 48 * 3600 →
      calculate_reminder_time tz rh rm eff post = none) ∧
    (48 * 3600 ≤ toSecs eff - toSecs post →
      calculate_reminder_time tz rh rm eff post =
        some (toSecs ⟨(prevDay eff.year eff.month eff.day).1,
                      (prevDay eff.year eff.month eff.day).2.1,
                      (prevDay eff.year eff.month eff.day).2.2, rh, rm, 0⟩
              - tz ⟨(prevDay eff.year eff.month eff.day).1,
                    (prevDay eff.year eff.month eff.day).2.1,
                    (prevDay eff.year eff.month eff.day).2.2, rh, rm, 0⟩)) := by
  constructor
  · intro h
    simp only [calculate_reminder_time]
    rw [if_pos (by omega)]
  · intro h
    simp only [calculate_reminder_time]
    rw [if_neg (by omega)]

/-- Witness for C5: a message posted Oct 1 for a Dec 25 effective
instant gets a reminder at Dec 24, 09:00 local (UTC offset one hour). -/
theorem c5_reminder_time_witness :
    48 * 3600 ≤ toSecs ⟨2025, 12, 25, 0, 0, 0⟩ - toSecs ⟨2025, 10, 1, 12, 0, 0⟩ ∧
    calculate_reminder_time (fun _ => 3600) 9 0 ⟨2025, 12, 25, 0, 0, 0⟩ ⟨2025, 10, 1, 12, 0, 0⟩ =
      some (toSecs ⟨2025, 12, 24, 9, 0, 0⟩ - 3600) :=
  ⟨by decide, (c5_reminder_time (fun _ => 3600) 9 0 ⟨2025, 12, 25, 0, 0, 0⟩ ⟨2025, 10, 1, 12, 0, 0⟩).2 (by decide)⟩

/-- C9: submitting a message whose id already has a record is an
idempotent no-op — `on_message` returns the store unchanged whenever any
stored record carries the same message id. -/
theorem c9_duplicate_submission_noop (nowY nowM : Nat) (tz : PyDateTime → Int)
    (rh rm : Nat) (store : Store) (msg : InMessage)
    (h : ∃ g ∈ store.graphics, g.message_id = msg.id) :
    on_message nowY nowM tz rh rm store msg = store := by
  have hfind : (store.graphics.find? (fun g => g.message_id == msg.id)).isSome = true := by
    rcases h with ⟨g, hg, hid⟩
    exact List.find?_isSome.mpr ⟨g, hg, by simp [hid]⟩
  unfold on_message
  split_ifs with h1 h2 h3 h4 <;> rfl

/-- Concrete store for the C9 witness, already containing message 5. -/
def c9store : Store :=
  { channels := [7],
    graphics := [{ message_id := 5, channel_id := 7, guild_id := 1, author_id := 2,
                   date_format := some "January", expiry_date := some 100 }] }

/-- Concrete resubmission of message 5 for the C9 witness. -/
def c9msg : InMessage :=
  { id := 5, channel_id := 7, guild_id := 1, author_id := 3,
    authorBot := false, manageMessages := true, hasAttachments := true,
    content := "january", created_at := ⟨2025, 10, 1, 0, 0, 0⟩ }

/-- Witness for C9 at a concrete store and message. -/
theorem c9_duplicate_submission_noop_witness :
    (∃ g ∈ c9store.graphics, g.message_id = c9msg.id) ∧
    on_message 2025 10 (fun _ => 0) 9 0 c9store c9msg = c9store :=
  ⟨⟨_, List.mem_singleton.mpr rfl, rfl⟩,
   c9_duplicate_submission_noop 2025 10 (fun _ => 0) 9 0 c9store c9msg
     ⟨_, List.mem_singleton.mpr rfl, rfl⟩⟩

/-- C10: every record inserted by `DateInputModal.on_submit` (the
human-classification path) stores only the label and expiry instant:
`in_effect_date` and `reminder_scheduled_time` remain null and
`reminder_sent` is false, so the reminder query never selects the
record. -/
theorem c10_modal_record_no_reminder (nowY nowM : Nat) (env : PlatformEnv)
    (store : Store) (msg : InMessage) (rawDate : String) (g : MonitoredGraphic)
    (hmem : g ∈ (modal_on_submit nowY nowM env store msg rawDate).graphics)
    (hnew : g ∉ store.graphics) :
    g.in_effect_date = none ∧ g.reminder_scheduled_time = none ∧
    g.reminder_sent = false ∧ ∀ now : Int, needsReminder now g = false := by
  unfold modal_on_submit at hmem
  split at hmem
  · exact absurd hmem hnew
  · split at hmem
    · exact absurd hmem hnew
    · split at hmem
      · exact absurd hmem hnew
      · split at hmem
        · rw [List.mem_append] at hmem
          rcases hmem with hold | hnewmem
          · exact absurd hold hnew
          · rw [List.mem_singleton] at hnewmem
            subst hnewmem
            exact ⟨rfl, rfl, rfl, fun now => rfl⟩
        · exact absurd hmem hnew

/-- Concrete empty store for the C10 witness. -/
def c10store : Store := { channels := [7], graphics := [] }

/-- Concrete unclassified message for the C10 witness. -/
def c10msg : InMessage :=
  { id := 5, channel_id := 7, guild_id := 1, author_id := 2,
    authorBot := false, manageMessages := true, hasAttachments := true,
    content := "", created_at := ⟨2025, 10, 1, 0, 0, 0⟩ }

/-- The record `DateInputModal.on_submit` inserts for the C10 witness
when the moderator supplies the string `january` in October 2025. -/
def c10rec : MonitoredGraphic :=
  { message_id := 5, channel_id := 7, guild_id := 1, author_id := 2,
    date_format := some "January",
    expiry_date := some (toSecs ⟨2026, 2, 1, 23, 59, 59⟩) }

/-- Witness for C10: a concrete modal submission inserts exactly the
label-and-expiry record, which the reminder query never selects. -/
theorem c10_modal_record_no_reminder_witness :
    c10rec ∈ (modal_on_submit 2025 10 ⟨true, true, true, 0⟩ c10store c10msg "january").graphics ∧
    c10rec ∉ c10store.graphics ∧
    c10rec.in_effect_date = none ∧ c10rec.reminder_scheduled_time = none ∧
    c10rec.reminder_sent = false ∧ ∀ now : Int, needsReminder now c10rec = false :=
  ⟨by decide, by decide,
   (c10_modal_record_no_reminder 2025 10 ⟨true, true, true, 0⟩ c10store c10msg "january" c10rec
      (by decide) (by decide)).1,
   (c10_modal_record_no_reminder 2025 10 ⟨true, true, true, 0⟩ c10store c10msg "january" c10rec
      (by decide) (by decide)).2.1,
   (c10_modal_record_no_reminder 2025 10 ⟨true, true, true, 0⟩ c10store c10msg "january" c10rec
      (by decide) (by decide)).2.2.1,
   (c10_modal_record_no_reminder 2025 10 ⟨true, true, true, 0⟩ c10store c10msg "january" c10rec
      (by decide) (by decide)).2.2.2⟩

/-- A successfully constructed datetime carries exactly the requested
fields. -/
lemma mkDatetime_elim {y m d h mi s : Nat} {dt : PyDateTime}
    (hmk : mkDatetime y m d h mi s = some dt) : dt = ⟨y, m, d, h, mi, s⟩ := by
  unfold mkDatetime at hmk
  split at hmk
  · exact (Option.some_injective _ hmk).symm
  · exact absurd hmk (by simp)

/-- If the day-range branch produces a result, `parse_date` returns it. -/
lemma parse_date_of_dayRange {nowY nowM : Nat} {content : String} {r : DateParseResult}
    (h : tryDayRange nowY nowM content.toList = some r) :
    parse_date nowY nowM content = r := by
  unfold parse_date
  rw [h]

/-- If the day-range branch yields nothing (no match or invalid date),
`parse_date` falls through to the rest of the cascade. -/
lemma parse_date_of_no_dayRange {nowY nowM : Nat} {content : String}
    (h : tryDayRange nowY nowM content.toList = none) :
    parse_date nowY nowM content = parseFromTime nowY nowM content.toList := by
  unfold parse_date
  rw [h]

/-- Successful evaluation of the day-range branch: a leftmost match
whose two dates construct successfully yields the label, the
end-date-plus-one-day expiry at 23:59:59, and the start date. -/
lemma tryDayRange_of_search {nowY nowM : Nat} {cs : List Char}
    {d1 m1 d2 m2 : Nat} {s : List Char} {sd ed : PyDateTime}
    (h1 : searchDayRange cs = some (d1, m1, d2, m2, s))
    (h2 : mkDatetime (if nowM > m1 + 6 then nowY + 1 else nowY) m1 d1 0 0 0 = some sd)
    (h3 : mkDatetime (if m2 < m1 then (if nowM > m1 + 6 then nowY + 1 else nowY) + 1
                      else (if nowM > m1 + 6 then nowY + 1 else nowY)) m2 d2 0 0 0 = some ed) :
    tryDayRange nowY nowM cs =
      some ⟨some (String.mk s),
            some (addOneDay { ed with hour := 23, minute := 59, second := 59 }),
            some sd⟩ := by
  unfold tryDayRange
  rw [h1]
  simp only [h2, h3]

/-- The day-range branch is rejected as a whole when either constructed
date is invalid. -/
lemma tryDayRange_of_invalid {nowY nowM : Nat} {cs : List Char}
    {d1 m1 d2 m2 : Nat} {s : List Char}
    (h1 : searchDayRange cs = some (d1, m1, d2, m2, s))
    (h2 : mkDatetime (if nowM > m1 + 6 then nowY + 1 else nowY) m1 d1 0 0 0 = none ∨
          mkDatetime (if m2 < m1 then (if nowM > m1 + 6 then nowY + 1 else nowY) + 1
                      else (if nowM > m1 + 6 then nowY + 1 else nowY)) m2 d2 0 0 0 = none) :
    tryDayRange nowY nowM cs = none := by
  unfold tryDayRange
  rcases h2 with h2 | h2
  · simp only [h1, h2]
  · simp only [h1, h2]
    cases mkDatetime (if nowM > m1 + 6 then nowY + 1 else nowY) m1 d1 0 0 0 <;> rfl

/-- Successful evaluation of the intraday branch. -/
lemma tryTimeRange_of_search {nowY nowM : Nat} {cs : List Char}
    {d m h1v mi1 h2v mi2 : Nat} {s : List Char} {sd ed : PyDateTime}
    (h1 : searchTimeRange cs = some (d, m, h1v, mi1, h2v, mi2, s))
    (h2 : mkDatetime (if nowM > m + 6 then nowY + 1 else nowY) m d h1v mi1 0 = some sd)
    (h3 : mkDatetime (if nowM > m + 6 then nowY + 1 else nowY) m d h2v mi2 0 = some ed) :
    tryTimeRange nowY nowM cs =
      some ⟨some (String.mk s), some (addOneDay ed), some sd⟩ := by
  unfold tryTimeRange
  rw [h1]
  simp only [h2, h3]

/-- The intraday branch is rejected as a whole when either constructed
datetime is invalid. -/
lemma tryTimeRange_of_invalid {nowY nowM : Nat} {cs : List Char}
    {d m h1v mi1 h2v mi2 : Nat} {s : List Char}
    (h1 : searchTimeRange cs = some (d, m, h1v, mi1, h2v, mi2, s))
    (h2 : mkDatetime (if nowM > m + 6 then nowY + 1 else nowY) m d h1v mi1 0 = none ∨
          mkDatetime (if nowM > m + 6 then nowY + 1 else nowY) m d h2v mi2 0 = none) :
    tryTimeRange nowY nowM cs = none := by
  unfold tryTimeRange
  rcases h2 with h2 | h2
  · simp only [h1, h2]
  · simp only [h1, h2]
    cases mkDatetime (if nowM > m + 6 then nowY + 1 else nowY) m d h1v mi1 0 <;> rfl

/-- With neither the intraday nor the month pattern producing a result,
the cascade returns the all-`none` result. -/
lemma parseFromTime_of_none {nowY nowM : Nat} {cs : List Char}
    (h1 : tryTimeRange nowY nowM cs = none)
    (h2 : tryMonth nowY nowM (cs.map lowerChar) = none) :
    parseFromTime nowY nowM cs = ⟨none, none, none⟩ := by
  unfold parseFromTime parseFromMonth
  rw [h1, h2]

/-- Successful evaluation of the month-name branch. -/
lemma tryMonth_of_search {nowY nowM : Nat} {cl : List Char} {name : String} {m : Nat}
    (h1 : searchMonthName cl = some name)
    (h2 : MONTHS.lookup name = some m) :
    tryMonth nowY nowM cl =
      some ⟨some ((MONTH_DISPLAY_NAMES.lookup name).getD (pyCapitalize name)),
            some (addOneDay (if m == 12 then
                ⟨(if nowM > m + 6 then nowY + 1 else nowY), 12, 31, 23, 59, 59⟩
              else
                subOneSecond ⟨(if nowM > m + 6 then nowY + 1 else nowY), m + 1, 1, 0, 0, 0⟩)),
            some ⟨(if nowM > m + 6 then nowY + 1 else nowY), m, 1, 0, 0, 0⟩⟩ := by
  unfold tryMonth
  simp only [h1, h2]

/-- If the intraday branch produces a result, the cascade tail returns it. -/
lemma parseFromTime_of_time {nowY nowM : Nat} {cs : List Char} {r : DateParseResult}
    (h : tryTimeRange nowY nowM cs = some r) :
    parseFromTime nowY nowM cs = r := by
  unfold parseFromTime
  rw [h]

/-- If the intraday branch yields nothing, the cascade falls through to
the month pattern over the lowercased content. -/
lemma parseFromTime_of_noTime {nowY nowM : Nat} {cs : List Char}
    (h : tryTimeRange nowY nowM cs = none) :
    parseFromTime nowY nowM cs = parseFromMonth nowY nowM (cs.map lowerChar) := by
  unfold parseFromTime
  rw [h]

/-- If the month branch produces a result, the cascade tail returns it. -/
lemma parseFromMonth_of_month {nowY nowM : Nat} {cl : List Char} {r : DateParseResult}
    (h : tryMonth nowY nowM cl = some r) :
    parseFromMonth nowY nowM cl = r := by
  unfold parseFromMonth
  rw [h]

/-- C1 (counterexample): a text can contain the valid day-range
`25.12-31.12` (which alone parses to exactly the claimed window) and
still fail to parse, because `re.search` commits to the leftmost
day-range match: in `99.99-01.01 25.12-31.12` the leftmost match
`99.99-01.01` is invalid, the whole pattern is rejected, and no later
pattern matches, so parsing yields no match. -/
theorem c1_counterexample :
    parse_date 2025 10 "25.12-31.12" =
      ⟨some "25.12-31.12", some ⟨2026, 1, 1, 23, 59, 59⟩, some ⟨2025, 12, 25, 0, 0, 0⟩⟩ ∧
    List.IsInfix "25.12-31.12".toList "99.99-01.01 25.12-31.12".toList ∧
    parse_date 2025 10 "99.99-01.01 25.12-31.12" = ⟨none, none, none⟩ := by
  refine ⟨by decide, ⟨"99.99-01.01 ".toList, [], by decide⟩, by decide⟩

/-- C1 (amended): for every text whose leftmost day-range match forms
valid calendar dates under the inferred years, parse succeeds with
`in_effect_datetime` the start date at 00:00:00 and `expiry_datetime`
the day after the end date at 23:59:59; in particular `25.12-31.12`
yields the label `25.12-31.12` and expiry January 1 of the following
year at 23:59:59. -/
theorem c1_day_range_window :
    (∀ (nowY nowM : Nat) (content : String) (d1 m1 d2 m2 : Nat) (s : List Char)
        (sd ed : PyDateTime),
      searchDayRange content.toList = some (d1, m1, d2, m2, s) →
      mkDatetime (inferYear nowY nowM m1) m1 d1 0 0 0 = some sd →
      mkDatetime (if m2 < m1 then inferYear nowY nowM m1 + 1 else inferYear nowY nowM m1)
          m2 d2 0 0 0 = some ed →
      parse_date nowY nowM content =
        ⟨some (String.mk s),
         some (addOneDay { ed with hour := 23, minute := 59, second := 59 }),
         some sd⟩) ∧
    (∀ nowY nowM : Nat, 1 ≤ nowY → nowY ≤ 9999 → nowM ≤ 12 →
      parse_date nowY nowM "25.12-31.12" =
        ⟨some "25.12-31.12", some ⟨nowY + 1, 1, 1, 23, 59, 59⟩,
         some ⟨nowY, 12, 25, 0, 0, 0⟩⟩) := by
  have key : ∀ (nowY nowM : Nat) (content : String) (d1 m1 d2 m2 : Nat) (s : List Char)
      (sd ed : PyDateTime),
      searchDayRange content.toList = some (d1, m1, d2, m2, s) →
      mkDatetime (inferYear nowY nowM m1) m1 d1 0 0 0 = some sd →
      mkDatetime (if m2 < m1 then inferYear nowY nowM m1 + 1 else inferYear nowY nowM m1)
          m2 d2 0 0 0 = some ed →
      parse_date nowY nowM content =
        ⟨some (String.mk s),
         some (addOneDay { ed with hour := 23, minute := 59, second := 59 }),
         some sd⟩ := by
    intro nowY nowM content d1 m1 d2 m2 s sd ed h1 h2 h3
    simp only [inferYear] at h2 h3
    exact parse_date_of_dayRange (tryDayRange_of_search h1 h2 h3)
  refine ⟨key, ?_⟩
  intro nowY nowM hy1 hy2 hm
  have hIY : inferYear nowY nowM 12 = nowY := if_neg (by omega)
  have h2 : mkDatetime (inferYear nowY nowM 12) 12 25 0 0 0 = some ⟨nowY, 12, 25, 0, 0, 0⟩ := by
    rw [hIY]
    unfold mkDatetime
    rw [if_pos]
    simp [hy1, hy2, show daysInMonth nowY 12 = 31 from rfl]
  have h3 : mkDatetime (if 12 < 12 then inferYear nowY nowM 12 + 1 else inferYear nowY nowM 12)
      12 31 0 0 0 = some ⟨nowY, 12, 31, 0, 0, 0⟩ := by
    rw [if_neg (by omega), hIY]
    unfold mkDatetime
    rw [if_pos]
    simp [hy1, hy2, show daysInMonth nowY 12 = 31 from rfl]
  exact key nowY nowM "25.12-31.12" 25 12 31 12 ("25.12-31.12".toList)
    ⟨nowY, 12, 25, 0, 0, 0⟩ ⟨nowY, 12, 31, 0, 0, 0⟩ rfl h2 h3

/-- Witness for C1 at two concrete inputs, including a year-spanning
range. -/
theorem c1_day_range_window_witness :
    parse_date 2025 10 "28.12-02.01" =
      ⟨some "28.12-02.01", some ⟨2026, 1, 3, 23, 59, 59⟩, some ⟨2025, 12, 28, 0, 0, 0⟩⟩ ∧
    parse_date 2024 6 "25.12-31.12" =
      ⟨some "25.12-31.12", some ⟨2025, 1, 1, 23, 59, 59⟩, some ⟨2024, 12, 25, 0, 0, 0⟩⟩ :=
  ⟨c1_day_range_window.1 2025 10 "28.12-02.01" 28 12 2 1 ("28.12-02.01".toList)
      ⟨2025, 12, 28, 0, 0, 0⟩ ⟨2026, 1, 2, 0, 0, 0⟩ (by decide) (by decide) (by decide),
   c1_day_range_window.2 2024 6 (by decide) (by decide) (by decide)⟩

/-- C2 (counterexample): parsing `styczen` succeeds, but both claimed
outputs are wrong.  The label is the source dictionary's mojibake entry
(`Stycze` followed by U+2248 U+00D1), not the canonical diacritic form
`Styczeń` — even though the repository's own test asserts the diacritic
form — and the expiry is February 1 at 23:59:59 (the source adds a full
day to Jan 31 23:59:59), not February 1 at 00:00:00. -/
theorem c2_counterexample :
    (parse_date 2025 10 "styczen").original_date_string = some "Stycze≈Ñ" ∧
    (parse_date 2025 10 "styczen").original_date_string ≠ some "Styczeń" ∧
    (parse_date 2025 10 "styczen").expiry_datetime = some ⟨2026, 2, 1, 23, 59, 59⟩ ∧
    (parse_date 2025 10 "styczen").expiry_datetime ≠ some ⟨2026, 2, 1, 0, 0, 0⟩ := by
  refine ⟨by decide, by decide, by decide, by decide⟩

/-- C2 (amended): for every parse-time year and month, parsing
`styczen` succeeds, yielding the display label the source dictionary
actually stores (the mojibake of `Styczeń`: `Stycze` followed by U+2248
U+00D1), effective January 1 at 00:00:00 and expiry February 1 at
23:59:59 of the inferred year. -/
theorem c2_styczen_parse (nowY nowM : Nat) :
    parse_date nowY nowM "styczen" =
      ⟨some "Stycze≈Ñ", some ⟨inferYear nowY nowM 1, 2, 1, 23, 59, 59⟩,
       some ⟨inferYear nowY nowM 1, 1, 1, 0, 0, 0⟩⟩ := by
  rfl

/-- C3: the inferred year follows the rollover rule in all three
branches: a single month value `M` (the start month of a day-range, the
month of an intraday range, a named month) gets the current year plus
one exactly when the parse-time month exceeds `M + 6`, and the end date
of a day-range whose end month is smaller than its start month gets the
start year plus one. -/
theorem c3_year_inference :
    (∀ (nowY nowM : Nat) (content : String) (d1 m1 d2 m2 : Nat) (s : List Char)
        (sd ed : PyDateTime),
      searchDayRange content.toList = some (d1, m1, d2, m2, s) →
      mkDatetime (inferYear nowY nowM m1) m1 d1 0 0 0 = some sd →
      mkDatetime (if m2 < m1 then inferYear nowY nowM m1 + 1 else inferYear nowY nowM m1)
          m2 d2 0 0 0 = some ed →
      (parse_date nowY nowM content).in_effect_datetime = some sd ∧
      sd.year = inferYear nowY nowM m1 ∧
      ed.year = (if m2 < m1 then inferYear nowY nowM m1 + 1 else inferYear nowY nowM m1)) ∧
    (∀ (nowY nowM : Nat) (content : String) (d m h1v mi1 h2v mi2 : Nat) (s : List Char)
        (sd ed : PyDateTime),
      tryDayRange nowY nowM content.toList = none →
      searchTimeRange content.toList = some (d, m, h1v, mi1, h2v, mi2, s) →
      mkDatetime (inferYear nowY nowM m) m d h1v mi1 0 = some sd →
      mkDatetime (inferYear nowY nowM m) m d h2v mi2 0 = some ed →
      (parse_date nowY nowM content).in_effect_datetime = some sd ∧
      sd.year = inferYear nowY nowM m) ∧
    (∀ (nowY nowM : Nat) (content : String) (name : String) (m : Nat),
      tryDayRange nowY nowM content.toList = none →
      tryTimeRange nowY nowM content.toList = none →
      searchMonthName (content.toList.map lowerChar) = some name →
      MONTHS.lookup name = some m →
      (parse_date nowY nowM content).in_effect_datetime =
        some ⟨inferYear nowY nowM m, m, 1, 0, 0, 0⟩) := by
  refine ⟨?_, ?_, ?_⟩
  · intro nowY nowM content d1 m1 d2 m2 s sd ed h1 h2 h3
    have hsd := mkDatetime_elim h2
    have hed := mkDatetime_elim h3
    simp only [inferYear] at h2 h3
    rw [parse_date_of_dayRange (tryDayRange_of_search h1 h2 h3)]
    refine ⟨rfl, ?_, ?_⟩
    · rw [hsd]
    · rw [hed]
  · intro nowY nowM content d m h1v mi1 h2v mi2 s sd ed h0 h1 h2 h3
    have hsd := mkDatetime_elim h2
    simp only [inferYear] at h2 h3
    rw [parse_date_of_no_dayRange h0,
        parseFromTime_of_time (tryTimeRange_of_search h1 h2 h3)]
    exact ⟨rfl, by rw [hsd]⟩
  · intro nowY nowM content name m h0 h1 h2 h3
    rw [parse_date_of_no_dayRange h0, parseFromTime_of_noTime h1,
        parseFromMonth_of_month (tryMonth_of_search h2 h3)]
    simp only [inferYear]

/-- Witness for C3: a rolled-over year-spanning day-range, an intraday
range in the current year, and a month name rolled over to the next
year. -/
theorem c3_year_inference_witness :
    ((parse_date 2025 3 "28.12-02.01").in_effect_datetime = some ⟨2025, 12, 28, 0, 0, 0⟩ ∧
     (2025 : Nat) = inferYear 2025 3 12 ∧
     (2026 : Nat) = (if 1 < 12 then inferYear 2025 3 12 + 1 else inferYear 2025 3 12)) ∧
    ((parse_date 2025 10 "04.10 14:00 - 17:00").in_effect_datetime =
      some ⟨2025, 10, 4, 14, 0, 0⟩ ∧ (2025 : Nat) = inferYear 2025 10 10) ∧
    (parse_date 2025 10 "styczen").in_effect_datetime =
      some ⟨inferYear 2025 10 1, 1, 1, 0, 0, 0⟩ := by
  refine ⟨?_, ?_, ?_⟩
  · have h := c3_year_inference.1 2025 3 "28.12-02.01" 28 12 2 1 ("28.12-02.01".toList)
      ⟨2025, 12, 28, 0, 0, 0⟩ ⟨2026, 1, 2, 0, 0, 0⟩ (by decide) (by decide) (by decide)
    exact ⟨h.1, h.2.1.symm, h.2.2.symm⟩
  · have h := c3_year_inference.2.1 2025 10 "04.10 14:00 - 17:00" 4 10 14 0 17 0
      ("04.10 14:00 - 17:00".toList) ⟨2025, 10, 4, 14, 0, 0⟩ ⟨2025, 10, 4, 17, 0, 0⟩
      (by decide) (by rfl) (by decide) (by decide)
    exact ⟨h.1, h.2.symm⟩
  · exact c3_year_inference.2.2 2025 10 "styczen" "styczen" 1
      (by decide) (by decide) (by decide) (by decide)

/-- C4: a pattern whose leftmost match produces an invalid calendar
value is rejected as a whole and parsing falls through to the next
pattern in priority order, returning the all-`none` result when no later
pattern matches; `parse_date` is a total function (never throws).
Concrete instances: `30.02-05.03`, non-leap `29.02-01.03`, `15.13-20.13`
and the bare invalid values yield no match, while an invalid day-range
followed by a valid intraday range falls through to the intraday
result. -/
theorem c4_invalid_date_fallthrough :
    (∀ (nowY nowM : Nat) (content : String) (d1 m1 d2 m2 : Nat) (s : List Char),
      searchDayRange content.toList = some (d1, m1, d2, m2, s) →
      (mkDatetime (inferYear nowY nowM m1) m1 d1 0 0 0 = none ∨
       mkDatetime (if m2 < m1 then inferYear nowY nowM m1 + 1 else inferYear nowY nowM m1)
          m2 d2 0 0 0 = none) →
      parse_date nowY nowM content = parseFromTime nowY nowM content.toList) ∧
    (∀ (nowY nowM : Nat) (cs : List Char) (d m h1v mi1 h2v mi2 : Nat) (s : List Char),
      searchTimeRange cs = some (d, m, h1v, mi1, h2v, mi2, s) →
      (mkDatetime (inferYear nowY nowM m) m d h1v mi1 0 = none ∨
       mkDatetime (inferYear nowY nowM m) m d h2v mi2 0 = none) →
      parseFromTime nowY nowM cs = parseFromMonth nowY nowM (cs.map lowerChar)) ∧
    (∀ (nowY nowM : Nat) (cs : List Char),
      tryTimeRange nowY nowM cs = none →
      tryMonth nowY nowM (cs.map lowerChar) = none →
      parseFromTime nowY nowM cs = ⟨none, none, none⟩) ∧
    parse_date 2025 10 "30.02-05.03" = ⟨none, none, none⟩ ∧
    parse_date 2025 1 "29.02-01.03" = ⟨none, none, none⟩ ∧
    parse_date 2025 10 "15.13-20.13" = ⟨none, none, none⟩ ∧
    parse_date 2025 1 "40.02-50.02 15.03 10:00-18:00" =
      ⟨some "15.03 10:00-18:00", some ⟨2025, 3, 16, 18, 0, 0⟩, some ⟨2025, 3, 15, 10, 0, 0⟩⟩ ∧
    parse_date 2025 10 "30.02" = ⟨none, none, none⟩ ∧
    parse_date 2025 10 "15.13" = ⟨none, none, none⟩ ∧
    parse_date 2025 1 "29.02" = ⟨none, none, none⟩ := by
  refine ⟨?_, ?_, ?_, by decide, by decide, by decide, by decide, by decide, by decide, by decide⟩
  · intro nowY nowM content d1 m1 d2 m2 s h1 h2
    simp only [inferYear] at h2
    exact parse_date_of_no_dayRange (tryDayRange_of_invalid h1 h2)
  · intro nowY nowM cs d m h1v mi1 h2v mi2 s h1 h2
    simp only [inferYear] at h2
    exact parseFromTime_of_noTime (tryTimeRange_of_invalid h1 h2)
  · intro nowY nowM cs h1 h2
    exact parseFromTime_of_none h1 h2

/-- Witness for C4: concrete fall-through steps for an invalid
day-range and an invalid intraday range. -/
theorem c4_invalid_date_fallthrough_witness :
    parse_date 2026 1 "30.02-05.03" = parseFromTime 2026 1 ("30.02-05.03".toList) ∧
    parseFromTime 2026 1 ("31.04 25:00-26:00".toList) =
      parseFromMonth 2026 1 (("31.04 25:00-26:00".toList).map lowerChar) ∧
    parseFromTime 2026 1 ("30.02-05.03".toList) = ⟨none, none, none⟩ :=
  ⟨c4_invalid_date_fallthrough.1 2026 1 "30.02-05.03" 30 2 5 3 ("30.02-05.03".toList)
      (by decide) (Or.inl (by decide)),
   c4_invalid_date_fallthrough.2.1 2026 1 ("31.04 25:00-26:00".toList) 31 4 25 0 26 0
      ("31.04 25:00-26:00".toList) (by rfl) (Or.inl (by decide)),
   c4_invalid_date_fallthrough.2.2.1 2026 1 ("30.02-05.03".toList) (by decide) (by decide)⟩
